import Mathlib

/-!
Verification of the HRAssistant frontend (`src/frontend/cards.js`):
a shallow embedding of the expandable-card factory (`makeCard`,
`toggleExpanded`, the `doExpand` / `doCollapse` / `onToggle` closures),
the page-controller handlers (job edit-in-place save, job delete,
`fetchJobs` / `loadJobs` / `ensureSearchJobs`), the candidate CV
lazy-fetch `onExpand` handlers, and the `escapeHtml` utility.

DOM state that the code reads or writes (the `expanded` class on the
card root, the header's `aria-expanded` attribute, input `disabled`
flags, text content of elements, the options and value of the search
`<select>`) is modelled explicitly as record fields.  Side effects that
the code performs (applying or removing the visual class, setting the
accessibility attribute, invoking the lifecycle hooks) are recorded as
an explicit event trace so that ordering and multiplicity can be
stated.  Network calls are modelled by passing the response of each
`fetch` as an explicit argument: `ok` carries the parsed JSON payload,
`notOk` is a non-2xx response, `thrown` is a rejected fetch; a handler
that lets an exception escape is modelled as returning `Except.error`.
-/

/-- A fragment of JavaScript values, enough to model truthiness checks
(`if (!id) ...`, `s || ''`) and `String(...)` coercion as used by the
source. Numbers are modelled as integers. -/
inductive JSValue where
  | undefined
  | null
  | bool (b : Bool)
  | num (n : Int)
  | str (s : String)
deriving DecidableEq, Repr

/-- JavaScript truthiness for the modelled value fragment. -/
def JSValue.truthy : JSValue → Bool
  | .undefined => false
  | .null => false
  | .bool b => b
  | .num n => n != 0
  | .str s => s != ""

/-- JavaScript `String(v)` coercion for the modelled value fragment. -/
def jsToString : JSValue → String
  | .undefined => "undefined"
  | .null => "null"
  | .bool b => if b then "true" else "false"
  | .num n => toString n
  | .str s => s

/-- Observable side effects of the card component, in the order the code
performs them: class-list mutations on the root, the `aria-expanded`
attribute write on the header, and the three lifecycle hook calls. -/
inductive Ev where
  | classExpandedAdded
  | classExpandedRemoved
  | ariaSetFalse
  | callInit
  | callExpand
  | callCollapse
deriving DecidableEq, BEq, Repr

/-- The DOM state of one card that the component itself reads or
writes: whether the root's class list contains `expanded`, and the
header's `aria-expanded` attribute value. -/
structure CardState where
  hasExpandedClass : Bool
  ariaExpanded : String
deriving DecidableEq, Repr

/-- `makeCard`'s configuration object. Hook presence is modelled by a
flag (`typeof onX === 'function'`); defaults mirror the destructuring
defaults in the source (`initiallyExpanded = false`, hooks absent). -/
structure CardConfig where
  id : JSValue
  hasOnInit : Bool := false
  hasOnExpand : Bool := false
  hasOnCollapse : Bool := false
  initiallyExpanded : Bool := false
deriving DecidableEq, Repr

/-- `toggleExpanded(root, expanded)` (cards.js lines 10-21): on
`expanded` it adds the `expanded` class (the `aria-expanded` write on
this branch is commented out in the source); otherwise it removes the
class and sets the header's `aria-expanded` attribute to `'false'`. -/
def toggleExpanded (s : CardState) (expanded : Bool) : CardState × List Ev :=
  if expanded then
    ({ s with hasExpandedClass := true }, [Ev.classExpandedAdded])
  else
    ({ hasExpandedClass := false, ariaExpanded := "false" },
     [Ev.classExpandedRemoved, Ev.ariaSetFalse])

/-- The `doExpand` closure (cards.js lines 56-59): apply the class via
`toggleExpanded(root, true)`, then call `onExpand` if it is a
function. There is no guard on the current state. -/
def doExpand (cfg : CardConfig) (s : CardState) : CardState × List Ev :=
  let r := toggleExpanded s true
  (r.1, r.2 ++ if cfg.hasOnExpand then [Ev.callExpand] else [])

/-- The `doCollapse` closure (cards.js lines 60-63): remove the class
via `toggleExpanded(root, false)`, then call `onCollapse` if it is a
function. There is no guard on the current state. -/
def doCollapse (cfg : CardConfig) (s : CardState) : CardState × List Ev :=
  let r := toggleExpanded s false
  (r.1, r.2 ++ if cfg.hasOnCollapse then [Ev.callCollapse] else [])

/-- The `onToggle` closure (cards.js lines 65-68): the next state is
read off the class list (`!root.classList.contains('expanded')`) and
the matching transition runs. -/
def onToggle (cfg : CardConfig) (s : CardState) : CardState × List Ev :=
  if !s.hasExpandedClass then doExpand cfg s else doCollapse cfg s

/-- The header `click` listener (cards.js line 70) just runs `onToggle`. -/
def onHeaderClick (cfg : CardConfig) (s : CardState) : CardState × List Ev :=
  onToggle cfg s

/-- The header `keydown` listener (cards.js lines 71-76): only the
`Enter` and space keys trigger `onToggle`; other keys do nothing. -/
def onHeaderKeydown (key : String) (cfg : CardConfig) (s : CardState) :
    CardState × List Ev :=
  if key = "Enter" ∨ key = " " then onToggle cfg s else (s, [])

/-- `makeCard` (cards.js lines 23-92): reject a falsy `id` by throwing
(modelled as `Except.error`); otherwise build the card (header created
with `aria-expanded="false"`, root without the `expanded` class), run
`onInit` once if provided, then apply the initial state: `doExpand` if
`initiallyExpanded`, else `toggleExpanded(root, false)`. Returns the
final card state and the trace of hook calls and class/attribute
writes, in order. -/
def makeCard (cfg : CardConfig) : Except String (CardState × List Ev) :=
  if !cfg.id.truthy then .error "makeCard: id is required"
  else
    let s0 : CardState := { hasExpandedClass := false, ariaExpanded := "false" }
    let initEv := if cfg.hasOnInit then [Ev.callInit] else []
    let r := if cfg.initiallyExpanded then doExpand cfg s0 else toggleExpanded s0 false
    .ok (r.1, initEv ++ r.2)

/-- Concrete configuration used for witnesses: all three hooks present. -/
def cfgA : CardConfig :=
  { id := JSValue.str "job-1", hasOnInit := true, hasOnExpand := true, hasOnCollapse := true }

/-- A collapsed card state as produced by `makeCard` with default options. -/
def collapsedA : CardState := { hasExpandedClass := false, ariaExpanded := "false" }

/-- An expanded card state (class applied, attribute still at its creation value). -/
def expandedA : CardState := { hasExpandedClass := true, ariaExpanded := "false" }

/-- Claim C1: a click or Enter/Space keypress on the header toggles between
exactly the two states: from collapsed it expands and fires `onExpand` exactly
once, after the `expanded` class is applied; from expanded it collapses and
fires `onCollapse` exactly once, after the class is removed; the state strictly
alternates. -/
theorem card_toggle_two_states (cfg : CardConfig) (hE : cfg.hasOnExpand = true)
    (hC : cfg.hasOnCollapse = true) (s : CardState) :
    (onToggle cfg s).1.hasExpandedClass = !s.hasExpandedClass
    ∧ (s.hasExpandedClass = false →
        (onToggle cfg s).2 = [Ev.classExpandedAdded, Ev.callExpand])
    ∧ (s.hasExpandedClass = true →
        (onToggle cfg s).2 = [Ev.classExpandedRemoved, Ev.ariaSetFalse, Ev.callCollapse])
    ∧ onHeaderClick cfg s = onToggle cfg s
    ∧ onHeaderKeydown "Enter" cfg s = onToggle cfg s
    ∧ onHeaderKeydown " " cfg s = onToggle cfg s := by
  cases h : s.hasExpandedClass <;>
    simp [onToggle, doExpand, doCollapse, toggleExpanded, onHeaderClick,
      onHeaderKeydown, h, hE, hC]

/-- Witness for `card_toggle_two_states` at a concrete config and state. -/
theorem card_toggle_two_states_witness :
    (onToggle cfgA collapsedA).1.hasExpandedClass = !collapsedA.hasExpandedClass
    ∧ (collapsedA.hasExpandedClass = false →
        (onToggle cfgA collapsedA).2 = [Ev.classExpandedAdded, Ev.callExpand])
    ∧ (collapsedA.hasExpandedClass = true →
        (onToggle cfgA collapsedA).2 = [Ev.classExpandedRemoved, Ev.ariaSetFalse, Ev.callCollapse])
    ∧ onHeaderClick cfgA collapsedA = onToggle cfgA collapsedA
    ∧ onHeaderKeydown "Enter" cfgA collapsedA = onToggle cfgA collapsedA
    ∧ onHeaderKeydown " " cfgA collapsedA = onToggle cfgA collapsedA :=
  card_toggle_two_states cfgA rfl rfl collapsedA

/-- Claim C2: with a truthy id and an `onInit` callback, `makeCard` invokes
`onInit` exactly once, as the first recorded effect (before the initial
expand/collapse is applied); later toggles never invoke it again; and a
configuration built without `initiallyExpanded` defaults it to `false`. -/
theorem card_init_exactly_once (cfg : CardConfig) (hid : cfg.id.truthy = true)
    (hI : cfg.hasOnInit = true) :
    (∃ s tr, makeCard cfg = .ok (s, tr)
        ∧ tr.count Ev.callInit = 1
        ∧ tr.head? = some Ev.callInit
        ∧ s.hasExpandedClass = cfg.initiallyExpanded)
    ∧ (∀ s, (onToggle cfg s).2.count Ev.callInit = 0)
    ∧ ({ id := cfg.id } : CardConfig).initiallyExpanded = false := by
  refine ⟨?_, ?_, rfl⟩
  · cases hX : cfg.initiallyExpanded <;> cases ho : cfg.hasOnExpand <;>
      simp [makeCard, hid, hI, hX, ho, doExpand, toggleExpanded] <;>
      exact ⟨_, _, ⟨rfl, rfl⟩, by decide, by decide, by decide⟩
  · intro s
    cases h : s.hasExpandedClass <;> cases ho : cfg.hasOnExpand <;>
      cases hc : cfg.hasOnCollapse <;>
      simp [onToggle, doExpand, doCollapse, toggleExpanded, h, ho, hc,
        List.count_cons] <;> decide

/-- Witness for `card_init_exactly_once` at a concrete configuration. -/
theorem card_init_exactly_once_witness :
    ((∃ s tr, makeCard cfgA = .ok (s, tr)
        ∧ tr.count Ev.callInit = 1
        ∧ tr.head? = some Ev.callInit
        ∧ s.hasExpandedClass = cfgA.initiallyExpanded)
    ∧ (∀ s, (onToggle cfgA s).2.count Ev.callInit = 0)
    ∧ ({ id := cfgA.id } : CardConfig).initiallyExpanded = false) :=
  card_init_exactly_once cfgA rfl rfl

/-- Claim C3: `makeCard` fails synchronously (throws) exactly when the
configured id is falsy, producing no card; with a truthy id it returns the
constructed card. -/
theorem makeCard_requires_truthy_id (cfg : CardConfig) :
    (cfg.id.truthy = false → makeCard cfg = .error "makeCard: id is required")
    ∧ (cfg.id.truthy = true → ∃ card, makeCard cfg = .ok card) := by
  constructor <;> intro h <;> simp [makeCard, h]

/-- Witness for `makeCard_requires_truthy_id`: a missing id (undefined, from
calling `makeCard({})`) fails, and a nonempty string id succeeds. -/
theorem makeCard_requires_truthy_id_witness :
    (makeCard { id := JSValue.undefined } = .error "makeCard: id is required")
    ∧ (∃ card, makeCard cfgA = .ok card) :=
  ⟨(makeCard_requires_truthy_id { id := JSValue.undefined }).1 rfl,
   (makeCard_requires_truthy_id cfgA).2 rfl⟩

/-- Claim C4 counterexample: the expand operation `doExpand` is unguarded —
invoked on a card that is already expanded it still fires `onExpand` (and
likewise `doCollapse` on an already-collapsed card still fires `onCollapse`),
so the hooks are not idempotent against double-invocation of the same target
state. -/
theorem doExpand_refires_when_already_expanded :
    expandedA.hasExpandedClass = true
    ∧ ¬ (doExpand cfgA expandedA).2.count Ev.callExpand = 0
    ∧ collapsedA.hasExpandedClass = false
    ∧ ¬ (doCollapse cfgA collapsedA).2.count Ev.callCollapse = 0 := by
  decide

/-- Claim C4 (amended): the raw `doExpand`/`doCollapse` closures fire their
hook on every invocation even when the card is already in the target state
(only the class-list update is idempotent); however they are reachable only
through `onToggle`, which invokes expand solely from the collapsed state and
collapse solely from the expanded state, so no toggle ever double-fires a
hook for a state the card is already in. -/
theorem toggle_never_double_fires (cfg : CardConfig) (s : CardState) :
    (s.hasExpandedClass = true → (onToggle cfg s).2.count Ev.callExpand = 0)
    ∧ (s.hasExpandedClass = false → (onToggle cfg s).2.count Ev.callCollapse = 0)
    ∧ (doExpand cfg s).1.hasExpandedClass = true
    ∧ (doCollapse cfg s).1.hasExpandedClass = false
    ∧ (doExpand cfg s).2.count Ev.callExpand = (if cfg.hasOnExpand then 1 else 0)
    ∧ (doCollapse cfg s).2.count Ev.callCollapse = (if cfg.hasOnCollapse then 1 else 0) := by
  cases h : s.hasExpandedClass <;> cases ho : cfg.hasOnExpand <;>
    cases hc : cfg.hasOnCollapse <;>
    simp [onToggle, doExpand, doCollapse, toggleExpanded, h, ho, hc,
      List.count_cons] <;> decide

/-- Witness for `toggle_never_double_fires` at a concrete config and state. -/
theorem toggle_never_double_fires_witness :
    ((expandedA.hasExpandedClass = true →
        (onToggle cfgA expandedA).2.count Ev.callExpand = 0)
    ∧ (expandedA.hasExpandedClass = false →
        (onToggle cfgA expandedA).2.count Ev.callCollapse = 0)
    ∧ (doExpand cfgA expandedA).1.hasExpandedClass = true
    ∧ (doCollapse cfgA expandedA).1.hasExpandedClass = false
    ∧ (doExpand cfgA expandedA).2.count Ev.callExpand = (if cfgA.hasOnExpand then 1 else 0)
    ∧ (doCollapse cfgA expandedA).2.count Ev.callCollapse = (if cfgA.hasOnCollapse then 1 else 0)) :=
  toggle_never_double_fires cfgA expandedA

/-- Claim C9: every collapse transition writes `aria-expanded = 'false'` on
the header, while the expand transition leaves the attribute at its previous
value (the symmetric write is commented out in the source); a freshly made
card starts with the attribute at `'false'`. -/
theorem collapse_sets_aria_false_expand_does_not (cfg : CardConfig)
    (s card0 : CardState) (tr0 : List Ev)
    (hmk : makeCard cfg = .ok (card0, tr0)) :
    (toggleExpanded s false).1.ariaExpanded = "false"
    ∧ (toggleExpanded s true).1.ariaExpanded = s.ariaExpanded
    ∧ (doCollapse cfg s).1.ariaExpanded = "false"
    ∧ (doExpand cfg s).1.ariaExpanded = s.ariaExpanded
    ∧ ((doCollapse cfg s).2.count Ev.ariaSetFalse = 1
        ∧ (doExpand cfg s).2.count Ev.ariaSetFalse = 0)
    ∧ card0.ariaExpanded = "false" := by
  refine ⟨rfl, rfl, ?_, ?_, ⟨?_, ?_⟩, ?_⟩ <;>
    first
    | (cases ho : cfg.hasOnExpand <;> cases hc : cfg.hasOnCollapse <;>
        simp [doExpand, doCollapse, toggleExpanded, ho, hc, List.count_cons] <;>
        decide)
    | (simp only [makeCard] at hmk
       split at hmk
       · exact absurd hmk (by simp)
       · cases hX : cfg.initiallyExpanded <;> cases ho : cfg.hasOnExpand <;>
           simp [hX, ho, doExpand, toggleExpanded] at hmk <;>
           simp [← hmk.1])

/-- Witness for `collapse_sets_aria_false_expand_does_not` at a concrete
configuration, state and `makeCard` result. -/
theorem collapse_sets_aria_false_expand_does_not_witness :
    (toggleExpanded expandedA false).1.ariaExpanded = "false"
    ∧ (toggleExpanded expandedA true).1.ariaExpanded = expandedA.ariaExpanded
    ∧ (doCollapse cfgA expandedA).1.ariaExpanded = "false"
    ∧ (doExpand cfgA expandedA).1.ariaExpanded = expandedA.ariaExpanded
    ∧ ((doCollapse cfgA expandedA).2.count Ev.ariaSetFalse = 1
        ∧ (doExpand cfgA expandedA).2.count Ev.ariaSetFalse = 0)
    ∧ ({ hasExpandedClass := false, ariaExpanded := "false" } : CardState).ariaExpanded = "false" :=
  collapse_sets_aria_false_expand_does_not cfgA expandedA
    { hasExpandedClass := false, ariaExpanded := "false" }
    [Ev.callInit, Ev.classExpandedRemoved, Ev.ariaSetFalse] rfl

/-- Outcome of one `fetch` of `GET /documents/:id` as the handlers see it:
a 2xx response whose JSON body has a `content` field, a 2xx response whose
JSON body is `null` (`doc ? doc.content : '(No CV)'`), a non-2xx response,
or a rejected fetch (caught by the handler's `try`/`catch`). -/
inductive FetchResult where
  | ok (content : String)
  | okNull
  | notOk
  | thrown
deriving DecidableEq, Repr

/-- The text both handlers install in the `<pre data-f-cv>` region for a
given response: the document content on success, the `(No CV)` placeholder
otherwise. -/
def respText : FetchResult → String
  | .ok content => content
  | .okNull => "(No CV)"
  | .notOk => "(No CV)"
  | .thrown => "(No CV)"

/-- The CV display region of one candidate card: the `textContent` of the
`<pre data-f-cv>` element (empty at construction) together with a count of
`GET /documents/:id` requests issued so far. -/
structure CvView where
  preText : String
  fetches : Nat
deriving DecidableEq, Repr

/-- The nested CV sub-card's `onExpand` (cards.js lines 341-350): return if
the region already has text; otherwise, when the candidate has a
`candidate_cv_id`, fetch the document (counted) and install its content or
the placeholder; without a cv id, install the placeholder with no fetch. -/
def cvCardOnExpand (cvId : Option String) (r : FetchResult) (v : CvView) : CvView :=
  if v.preText ≠ "" then v
  else
    match cvId with
    | some _ => { preText := respText r, fetches := v.fetches + 1 }
    | none => { preText := "(No CV)", fetches := v.fetches }

/-- The candidate card's own `onExpand` (cards.js lines 376-385): only when
the candidate has a `candidate_cv_id` and the region has no text, fetch the
document (counted) and install its content or the placeholder. -/
def candidateCardOnExpand (cvId : Option String) (r : FetchResult) (v : CvView) : CvView :=
  match cvId with
  | some _ =>
      if v.preText = "" then { preText := respText r, fetches := v.fetches + 1 } else v
  | none => v

/-- One expand of either the candidate card (`nested = false`) or its nested
CV sub-card (`nested = true`), with the response `r` the document fetch
would produce if issued. -/
def cvExpandStep (nested : Bool) (cvId : Option String) (r : FetchResult)
    (v : CvView) : CvView :=
  if nested then cvCardOnExpand cvId r v else candidateCardOnExpand cvId r v

/-- The CV region of a freshly built candidate card: no text, no fetches. -/
def cvFresh : CvView := { preText := "", fetches := 0 }

/-- Claim C5 counterexample: when the stored document's content is the empty
string, the first expand's fetch leaves the display region without text, so
expanding the (nested CV) card twice issues two `GET /documents/:id`
fetches — more than the claimed at-most-one. -/
theorem cv_fetch_twice_counterexample :
    ¬ (cvExpandStep true (some "doc-1") (FetchResult.ok "")
        (cvExpandStep true (some "doc-1") (FetchResult.ok "") cvFresh)).fetches ≤ 1 := by
  decide

/-- Claim C5 (amended): expanding a candidate card or its nested CV sub-card
twice, in any combination, issues at most one document fetch, provided the
first fetch's response is not a 2xx document whose content is the empty
string: the content is fetched lazily on first expand only, and once the
display region has text no further fetch is made (an empty-content document
defeats the text-presence cache and is re-fetched). -/
theorem cv_fetch_at_most_once (nested1 nested2 : Bool) (cvId : Option String)
    (r1 r2 : FetchResult) (h : r1 ≠ FetchResult.ok "") :
    (cvExpandStep nested2 cvId r2 (cvExpandStep nested1 cvId r1 cvFresh)).fetches ≤ 1 := by
  have hresp : respText r1 ≠ "" := by
    cases r1 with
    | ok content =>
        simp only [respText]
        intro hc
        exact h (by rw [hc])
    | okNull => simp [respText]
    | notOk => simp [respText]
    | thrown => simp [respText]
  cases cvId with
  | none =>
      cases nested1 <;> cases nested2 <;>
        simp [cvExpandStep, cvCardOnExpand, candidateCardOnExpand, cvFresh]
  | some d =>
      cases nested1 <;> cases nested2 <;>
        simp [cvExpandStep, cvCardOnExpand, candidateCardOnExpand, cvFresh, hresp]

/-- Witness for `cv_fetch_at_most_once`: two expands of the nested CV card
with a nonempty stored document issue one fetch in total. -/
theorem cv_fetch_at_most_once_witness :
    (cvExpandStep true (some "doc-1") (FetchResult.ok "Alice CV")
        (cvExpandStep true (some "doc-1") (FetchResult.ok "Alice CV") cvFresh)).fetches ≤ 1 :=
  cv_fetch_at_most_once true true (some "doc-1") (FetchResult.ok "Alice CV")
    (FetchResult.ok "Alice CV") (by decide)

/-- Outcome of the `PATCH /jobs/:id` request in the save handler: 2xx,
non-2xx (`if(!res.ok) throw`), or a rejected fetch. -/
inductive PatchResult where
  | ok
  | notOk
  | thrown
deriving DecidableEq, Repr

/-- The DOM and in-memory state touched by the job card's Edit/Save button
handler (cards.js lines 190-206): the three inputs' `disabled` flags and
current values, the button label, the in-memory `job` record fields, the
header title/subtitle text, and a count of `alert` calls. -/
structure JobEditState where
  titleDisabled : Bool
  companyDisabled : Bool
  descDisabled : Bool
  btnText : String
  titleValue : String
  companyValue : String
  descValue : String
  jobTitle : String
  jobCompany : String
  jobDesc : String
  headerTitle : String
  headerSubtitle : String
  alerts : Nat
deriving DecidableEq, Repr

/-- The job card's `btnEdit` click handler (cards.js lines 190-206):
`entering` is read from the title input's `disabled` flag; all three fields
get `disabled = !entering` and the button label becomes `Save`/`Edit`; when
the click is a Save (`!entering`), the PATCH is issued inside `try`/`catch`:
on 2xx the in-memory record and the header title/subtitle are updated from
the input values, on failure `alert('Failed to save job')` fires and nothing
else changes. -/
def jobBtnEditClick (r : PatchResult) (s : JobEditState) : JobEditState :=
  let entering := s.titleDisabled
  let s1 := { s with
    titleDisabled := !entering
    companyDisabled := !entering
    descDisabled := !entering
    btnText := if entering then "Save" else "Edit" }
  if entering then s1
  else
    match r with
    | .ok => { s1 with
        jobTitle := s1.titleValue
        jobCompany := s1.companyValue
        jobDesc := s1.descValue
        headerTitle := s1.titleValue
        headerSubtitle := s1.companyValue }
    | .notOk => { s1 with alerts := s1.alerts + 1 }
    | .thrown => { s1 with alerts := s1.alerts + 1 }

/-- A job card in edit mode (fields enabled, user has typed new values). -/
def jobEditing : JobEditState :=
  { titleDisabled := false
    companyDisabled := false
    descDisabled := false
    btnText := "Save"
    titleValue := "Engineer II"
    companyValue := "Acme Corp"
    descValue := "New description"
    jobTitle := "Engineer"
    jobCompany := "Acme"
    jobDesc := "Old description"
    headerTitle := "Engineer"
    headerSubtitle := "Acme"
    alerts := 0 }

/-- Claim C6 counterexample: clicking Save disables the fields before the
PATCH is issued, and a failed PATCH does not re-enable them — after a failed
save the inputs are in the disabled state (and the button reads `Edit`), not
the claimed enabled edit state. -/
theorem job_save_failure_fields_disabled_counterexample :
    jobEditing.titleDisabled = false
    ∧ ¬ (jobBtnEditClick PatchResult.notOk jobEditing).titleDisabled = false := by
  decide

/-- Claim C6 (amended): when saving a job edit-in-place and the PATCH fails
(thrown fetch error or non-2xx response), exactly one alert is raised and
the prior displayed values — the in-memory job record, the header
title/subtitle, and the typed input values — are left unchanged; however the
input fields do not remain enabled: they were disabled at the moment Save
was clicked, before the PATCH, and the failure path does not roll that back
(the button label likewise reverts to `Edit`). -/
theorem job_save_failure_preserves_values (r : PatchResult) (s : JobEditState)
    (hEdit : s.titleDisabled = false) (hFail : r ≠ PatchResult.ok) :
    (jobBtnEditClick r s).alerts = s.alerts + 1
    ∧ (jobBtnEditClick r s).jobTitle = s.jobTitle
    ∧ (jobBtnEditClick r s).jobCompany = s.jobCompany
    ∧ (jobBtnEditClick r s).jobDesc = s.jobDesc
    ∧ (jobBtnEditClick r s).headerTitle = s.headerTitle
    ∧ (jobBtnEditClick r s).headerSubtitle = s.headerSubtitle
    ∧ (jobBtnEditClick r s).titleValue = s.titleValue
    ∧ (jobBtnEditClick r s).companyValue = s.companyValue
    ∧ (jobBtnEditClick r s).descValue = s.descValue
    ∧ (jobBtnEditClick r s).titleDisabled = true
    ∧ (jobBtnEditClick r s).companyDisabled = true
    ∧ (jobBtnEditClick r s).descDisabled = true
    ∧ (jobBtnEditClick r s).btnText = "Edit" := by
  cases r with
  | ok => exact absurd rfl hFail
  | notOk => simp [jobBtnEditClick, hEdit]
  | thrown => simp [jobBtnEditClick, hEdit]

/-- Witness for `job_save_failure_preserves_values` at a concrete editing
state and a thrown PATCH. -/
theorem job_save_failure_preserves_values_witness :
    ((jobBtnEditClick PatchResult.thrown jobEditing).alerts = jobEditing.alerts + 1
    ∧ (jobBtnEditClick PatchResult.thrown jobEditing).jobTitle = jobEditing.jobTitle
    ∧ (jobBtnEditClick PatchResult.thrown jobEditing).jobCompany = jobEditing.jobCompany
    ∧ (jobBtnEditClick PatchResult.thrown jobEditing).jobDesc = jobEditing.jobDesc
    ∧ (jobBtnEditClick PatchResult.thrown jobEditing).headerTitle = jobEditing.headerTitle
    ∧ (jobBtnEditClick PatchResult.thrown jobEditing).headerSubtitle = jobEditing.headerSubtitle
    ∧ (jobBtnEditClick PatchResult.thrown jobEditing).titleValue = jobEditing.titleValue
    ∧ (jobBtnEditClick PatchResult.thrown jobEditing).companyValue = jobEditing.companyValue
    ∧ (jobBtnEditClick PatchResult.thrown jobEditing).descValue = jobEditing.descValue
    ∧ (jobBtnEditClick PatchResult.thrown jobEditing).titleDisabled = true
    ∧ (jobBtnEditClick PatchResult.thrown jobEditing).companyDisabled = true
    ∧ (jobBtnEditClick PatchResult.thrown jobEditing).descDisabled = true
    ∧ (jobBtnEditClick PatchResult.thrown jobEditing).btnText = "Edit") :=
  job_save_failure_preserves_values PatchResult.thrown jobEditing rfl (by decide)

/-- A job record as consumed by the frontend. `company_name` may be absent
in the backend; every read site guards it with `|| ''` or a truthiness
check, so absence is modelled as the empty string. -/
structure Job where
  id : String
  job_title : String
  company_name : String
  job_description : String
deriving DecidableEq, Repr

/-- The search page's `<select id="search-job-select">`: its option values in
document order and its current `value` (the empty string when no option is
selected, as for a select with `selectedIndex = -1`). -/
structure SelectState where
  options : List String
  value : String
deriving DecidableEq, Repr

/-- `searchSelect.appendChild(opt)`: appending the first option to an empty
single-select makes it the selection (standard DOM default-selection rule);
later options leave the selection alone. -/
def appendOption (s : SelectState) (v : String) : SelectState :=
  { options := s.options ++ [v]
    value := if s.options.isEmpty then v else s.value }

/-- Assignment to `searchSelect.value`: selects the matching option if one
exists, otherwise leaves the select with no selection (`value` empty). -/
def selectSetValue (s : SelectState) (v : String) : SelectState :=
  if s.options.contains v then { s with value := v } else { s with value := "" }

/-- `updateSearchInfo(job)` (cards.js lines 437-440): the text written to the
`#search-info` line. -/
def updateSearchInfo (job : Option Job) : String :=
  match job with
  | none => "No job selected."
  | some j =>
      "Selected: " ++ j.job_title ++
        (if j.company_name != "" then " @ " ++ j.company_name else "")

/-- The pure part of `ensureSearchJobs` (cards.js lines 423-436), after the
job list has been fetched: remember the current value, clear the options
(`innerHTML = ''`), append one option per job, default to the first job when
the select still has no value, restore the remembered value when truthy and
still present, then write the info line for the job matching the final
value. -/
def ensureSearchJobsPure (jobs : List Job) (sel : SelectState) :
    SelectState × String :=
  let curr := sel.value
  let sel1 : SelectState := { options := [], value := "" }
  let sel2 := jobs.foldl (fun s j => appendOption s j.id) sel1
  let sel3 :=
    match jobs with
    | [] => sel2
    | j0 :: _ => if sel2.value = "" then selectSetValue sel2 j0.id else sel2
  let sel4 :=
    if curr != "" && sel3.options.contains curr then selectSetValue sel3 curr
    else sel3
  (sel4, updateSearchInfo (jobs.find? (fun j => j.id = sel4.value)))

/-- Outcome of one `fetch` against the REST API, parameterised by the payload
a 2xx response carries. -/
inductive NetResult (α : Type) where
  | ok (val : α)
  | notOk
  | thrown
deriving DecidableEq, Repr

/-- `fetchJobs` (cards.js lines 146-150): no `try`/`catch` and no `res.ok`
check — a rejected fetch propagates to the caller (`Except.error`), while a
non-2xx JSON response simply has no `jobs` field, so `data.jobs || []`
yields the empty list. -/
def fetchJobsM (r : NetResult (List Job)) : Except Unit (List Job) :=
  match r with
  | .ok jobs => .ok jobs
  | .notOk => .ok []
  | .thrown => .error ()

/-- The page state touched by the jobs-page operations: the rendered job
list, the search select, the info line, and a count of `alert` calls. -/
structure PageState where
  jobsRendered : List Job
  select : SelectState
  searchInfo : String
  alerts : Nat
deriving DecidableEq, Repr

/-- `ensureSearchJobs` (cards.js lines 423-436) with its own `fetchJobs`
call: no `try`/`catch`, so a rejected fetch propagates. -/
def ensureSearchJobsM (r : NetResult (List Job)) (sel : SelectState) :
    Except Unit (SelectState × String) := do
  let jobs ← fetchJobsM r
  pure (ensureSearchJobsPure jobs sel)

/-- `loadJobs` (cards.js lines 223-227): fetch the job list, rebuild the
rendered list, then run `ensureSearchJobs` (which fetches again). No
`try`/`catch` anywhere on this path, so either fetch rejecting propagates. -/
def loadJobsM (r1 r2 : NetResult (List Job)) (s : PageState) :
    Except Unit PageState := do
  let jobs ← fetchJobsM r1
  let s1 := { s with jobsRendered := jobs }
  let r ← ensureSearchJobsM r2 s1.select
  pure { s1 with select := r.1, searchInfo := r.2 }

/-- The job card's Delete button handler (cards.js lines 210-217): after the
`confirm` prompt, the whole body — the DELETE fetch, the `res.ok` check and
the `loadJobs()` reload — runs inside one `try`/`catch` whose handler calls
`alert('Failed to delete job')`. -/
def jobBtnDeleteClick (confirmed : Bool) (rDel : NetResult Unit)
    (rJobs1 rJobs2 : NetResult (List Job)) (s : PageState) : PageState :=
  if !confirmed then s
  else
    let attempt : Except Unit PageState :=
      match rDel with
      | .ok _ => loadJobsM rJobs1 rJobs2 s
      | .notOk => .error ()
      | .thrown => .error ()
    match attempt with
    | .ok s1 => s1
    | .error _ => { s with alerts := s.alerts + 1 }

/-- Appending one option per job adds the job ids, in order, after any
existing options. -/
theorem jobFold_options (jobs : List Job) (init : SelectState) :
    (jobs.foldl (fun s j => appendOption s j.id) init).options
      = init.options ++ jobs.map Job.id := by
  induction jobs generalizing init with
  | nil => simp
  | cons j rest ih =>
      simp only [List.foldl_cons, List.map_cons]
      rw [ih]
      simp [appendOption]

/-- Once the select has at least one option, appending further options does
not move the selection. -/
theorem jobFold_value (jobs : List Job) (init : SelectState)
    (h : init.options.isEmpty = false) :
    (jobs.foldl (fun s j => appendOption s j.id) init).value = init.value := by
  induction jobs generalizing init with
  | nil => rfl
  | cons j rest ih =>
      simp only [List.foldl_cons]
      have hstep : appendOption init j.id
          = { options := init.options ++ [j.id], value := init.value } := by
        simp [appendOption, h]
      rw [hstep, ih { options := init.options ++ [j.id], value := init.value } (by simp)]

/-- Rebuilding a select from a nonempty job list selects the first job's id
by the DOM default-selection rule. -/
theorem jobFold_value_from_empty (j0 : Job) (rest : List Job) :
    ((j0 :: rest).foldl (fun s j => appendOption s j.id)
        { options := [], value := "" }).value = j0.id := by
  simp only [List.foldl_cons]
  have hstep : appendOption { options := [], value := "" } j0.id
      = { options := [j0.id], value := j0.id } := by
    simp [appendOption]
  rw [hstep, jobFold_value rest { options := [j0.id], value := j0.id } (by simp)]


/-- Characterization of the rebuilt select for a nonempty job list with
truthy ids: the options are exactly the job ids in order, and the value is
the previously selected id when still present, else the first job's id. -/
theorem ensureSearchJobs_char (j0 : Job) (rest : List Job) (sel : SelectState)
    (hall : ∀ j ∈ j0 :: rest, j.id ≠ "") :
    (ensureSearchJobsPure (j0 :: rest) sel).1 =
      { options := (j0 :: rest).map Job.id
        value := if sel.value ∈ (j0 :: rest).map Job.id then sel.value
                 else j0.id } := by
  have hj0 : j0.id ≠ "" := hall j0 (by simp)
  have hopts : (List.foldl (fun s j => appendOption s j.id)
      { options := [], value := "" } (j0 :: rest)).options = (j0 :: rest).map Job.id := by
    simpa using jobFold_options (j0 :: rest) { options := [], value := "" }
  have hval : (List.foldl (fun s j => appendOption s j.id)
      { options := [], value := "" } (j0 :: rest)).value = j0.id :=
    jobFold_value_from_empty j0 rest
  have hnem : ("" : String) ∉ (j0 :: rest).map Job.id := by
    simp only [List.mem_map]
    rintro ⟨j, hj, hjid⟩
    exact hall j hj hjid
  simp only [ensureSearchJobsPure]
  generalize hF : List.foldl (fun s j => appendOption s j.id)
      { options := [], value := "" } (j0 :: rest) = F at hopts hval
  obtain ⟨fo, fv⟩ := F
  simp only at hopts hval
  subst hopts hval
  rw [if_neg hj0]
  by_cases hmem : sel.value ∈ (j0 :: rest).map Job.id
  · have hne : sel.value ≠ "" := fun h => hnem (h ▸ hmem)
    have hmem2 : sel.value = j0.id ∨ ∃ a ∈ rest, a.id = sel.value := by
      simpa using hmem
    have hc : ((sel.value != "") && ((j0 :: rest).map Job.id).contains sel.value) = true := by
      simp [List.elem_iff, hne, hmem2]
    simp [hc, selectSetValue, List.elem_iff, hne, hmem, hmem2]
  · have hc : ¬ (((sel.value != "") && ((j0 :: rest).map Job.id).contains sel.value) = true) := by
      intro h
      exact hmem (List.elem_iff.mp ((Bool.and_eq_true _ _).mp h).2)
    rw [if_neg hc, if_neg hmem]

/-- Claim C8: rebuilding the search page's job dropdown keeps the previously
selected job id selected when a job with that id exists in the rebuilt list;
otherwise, for a nonempty list, the first entry becomes the selection (and an
empty list leaves nothing selected); the options are exactly the job ids in
order, and the info line is updated to reflect the job matching the
resulting selection. Job ids are assumed truthy (nonempty), as `makeCard`
already requires when the same list is rendered as cards. -/
theorem ensureSearchJobs_selection (jobs : List Job) (sel : SelectState)
    (hids : ∀ j ∈ jobs, j.id ≠ "") :
    (ensureSearchJobsPure jobs sel).1.options = jobs.map Job.id
    ∧ (sel.value ∈ jobs.map Job.id →
        (ensureSearchJobsPure jobs sel).1.value = sel.value)
    ∧ (∀ j0 rest, jobs = j0 :: rest → sel.value ∉ jobs.map Job.id →
        (ensureSearchJobsPure jobs sel).1.value = j0.id)
    ∧ (jobs = [] → (ensureSearchJobsPure jobs sel).1.value = "")
    ∧ (ensureSearchJobsPure jobs sel).2 =
        updateSearchInfo (jobs.find?
          (fun j => j.id = (ensureSearchJobsPure jobs sel).1.value)) := by
  cases jobs with
  | nil =>
      refine ⟨?_, ?_, ?_, ?_, ?_⟩ <;>
        simp [ensureSearchJobsPure, updateSearchInfo]
  | cons j0 rest =>
      have hchar := ensureSearchJobs_char j0 rest sel hids
      refine ⟨?_, ?_, ?_, ?_, rfl⟩
      · rw [hchar]
      · intro hmem
        rw [hchar]
        show (if sel.value ∈ List.map Job.id (j0 :: rest) then sel.value else j0.id)
          = sel.value
        rw [if_pos hmem]
      · intro j0' rest' heq hmem
        injection heq with h1 h2
        subst h1
        subst h2
        rw [hchar]
        show (if sel.value ∈ List.map Job.id (j0 :: rest) then sel.value else j0.id)
          = j0.id
        rw [if_neg hmem]
      · intro h
        exact absurd h (by simp)

/-- Jobs used by the `ensureSearchJobs_selection` witness. -/
def jobsA : List Job :=
  [{ id := "j1", job_title := "Engineer", company_name := "Acme",
     job_description := "Build things" },
   { id := "j2", job_title := "Designer", company_name := "",
     job_description := "Design things" }]

/-- A select state whose current value survives the rebuild from `jobsA`. -/
def selA : SelectState := { options := ["j1", "j2"], value := "j2" }

/-- Witness for `ensureSearchJobs_selection`: rebuilding from a two-job list
with `j2` selected keeps `j2` selected and refreshes the info line. -/
theorem ensureSearchJobs_selection_witness :
    (ensureSearchJobsPure jobsA selA).1.options = jobsA.map Job.id
    ∧ (selA.value ∈ jobsA.map Job.id →
        (ensureSearchJobsPure jobsA selA).1.value = selA.value)
    ∧ (∀ j0 rest, jobsA = j0 :: rest → selA.value ∉ jobsA.map Job.id →
        (ensureSearchJobsPure jobsA selA).1.value = j0.id)
    ∧ (jobsA = [] → (ensureSearchJobsPure jobsA selA).1.value = "")
    ∧ (ensureSearchJobsPure jobsA selA).2 =
        updateSearchInfo (jobsA.find?
          (fun j => j.id = (ensureSearchJobsPure jobsA selA).1.value)) :=
  ensureSearchJobs_selection jobsA selA (by decide)

/-- A page state used by the C7 theorems' witness. -/
def pageA : PageState :=
  { jobsRendered := []
    select := { options := [], value := "" }
    searchInfo := "No job selected."
    alerts := 0 }

/-- Claim C7 counterexample: `fetchJobs` and `loadJobs` have no `try`/`catch`,
so a rejected `GET /jobs` during `loadJobs` escapes uncaught — the operation
ends in an unhandled error and no alert is raised. -/
theorem loadJobs_failure_escapes_uncaught :
    loadJobsM NetResult.thrown NetResult.thrown pageA = Except.error () := by
  rfl

/-- Claim C7 (amended): the card-level mutation handlers wrap their whole
body in `try`/`catch` — for the job Delete handler both a failed DELETE
(thrown or non-2xx) and a failure of the post-delete `loadJobs` reload are
caught and surfaced as exactly one blocking alert, with the operation
abandoned and no retry; but the bare list-load path has no handler: a
rejected fetch in `loadJobs`/`ensureSearchJobs` escapes uncaught with no
alert, and a non-2xx `GET /jobs` silently yields an empty list. -/
theorem network_failure_handling (rDel : NetResult Unit)
    (r1 r2 : NetResult (List Job)) (s : PageState)
    (hFail : rDel = NetResult.notOk ∨ rDel = NetResult.thrown) :
    jobBtnDeleteClick true rDel r1 r2 s = { s with alerts := s.alerts + 1 }
    ∧ jobBtnDeleteClick true (NetResult.ok ()) NetResult.thrown r2 s
        = { s with alerts := s.alerts + 1 }
    ∧ loadJobsM NetResult.thrown r2 s = Except.error ()
    ∧ ensureSearchJobsM NetResult.thrown s.select = Except.error ()
    ∧ fetchJobsM NetResult.notOk = Except.ok [] := by
  refine ⟨?_, rfl, rfl, rfl, rfl⟩
  rcases hFail with h | h <;> subst h <;> rfl

/-- Witness for `network_failure_handling` at a concrete failing DELETE. -/
theorem network_failure_handling_witness :
    jobBtnDeleteClick true NetResult.thrown (NetResult.ok jobsA)
        (NetResult.ok jobsA) pageA = { pageA with alerts := pageA.alerts + 1 }
    ∧ jobBtnDeleteClick true (NetResult.ok ()) NetResult.thrown
        (NetResult.ok jobsA) pageA = { pageA with alerts := pageA.alerts + 1 }
    ∧ loadJobsM NetResult.thrown (NetResult.ok jobsA) pageA = Except.error ()
    ∧ ensureSearchJobsM NetResult.thrown pageA.select = Except.error ()
    ∧ fetchJobsM NetResult.notOk = Except.ok [] :=
  network_failure_handling NetResult.thrown (NetResult.ok jobsA)
    (NetResult.ok jobsA) pageA (Or.inr rfl)

/-- The characters `escapeHtml`'s regex class `[&<>"]+` matches. -/
def isSpecialChar (c : Char) : Bool :=
  c = '&' || c = '<' || c = '>' || c = '"'

/-- The replacement the arrow function produces for one maximal matched run:
the object literal maps the four single-character runs to their entities;
any longer run misses the lookup, the callback returns `undefined`, and
`String.prototype.replace` coerces that to the text `undefined`. -/
def entityFor (run : List Char) : List Char :=
  if run = [] then []
  else if run = ['&'] then "&amp;".data
  else if run = ['<'] then "&lt;".data
  else if run = ['>'] then "&gt;".data
  else if run = ['"'] then "&quot;".data
  else "undefined".data

/-- `String.prototype.replace` with the global greedy regex `[&<>"]+`:
scan left to right accumulating the current maximal run of matched
characters (`pending`), emitting `entityFor` of each run when it ends. -/
def escReplace (pending : List Char) : List Char → List Char
  | [] => entityFor pending
  | c :: rest =>
      if isSpecialChar c then escReplace (pending ++ [c]) rest
      else entityFor pending ++ c :: escReplace [] rest

/-- `escapeHtml(s)` (cards.js lines 451-453):
`String(s || '').replace(/[&<>"]+/g, c => map[c])` — falsy inputs coerce to
the empty string, then each maximal run of `&<>"` characters is replaced. -/
def escapeHtml (v : JSValue) : String :=
  let s := if v.truthy then jsToString v else ""
  String.mk (escReplace [] s.data)

/-- The characters whose absence the claim asserts for `escapeHtml` output. -/
def isBreakoutChar (c : Char) : Bool :=
  c = '<' || c = '>' || c = '"'

/-- No replacement text contains `<`, `>` or `"`. -/
theorem entityFor_no_breakout (run : List Char) :
    (entityFor run).all (fun c => !isBreakoutChar c) = true := by
  unfold entityFor
  split
  · rfl
  · split
    · decide
    · split
      · decide
      · split
        · decide
        · split
          · decide
          · decide

/-- No output of the replacement scan contains `<`, `>` or `"`. -/
theorem escReplace_no_breakout (l pending : List Char) :
    (escReplace pending l).all (fun c => !isBreakoutChar c) = true := by
  induction l generalizing pending with
  | nil => exact entityFor_no_breakout pending
  | cons c rest ih =>
      unfold escReplace
      split
      · exact ih (pending ++ [c])
      · rename_i hc
        have hb : isBreakoutChar c = false := by
          simp only [isSpecialChar, Bool.or_eq_true, decide_eq_true_eq] at hc
          push_neg at hc
          obtain ⟨⟨⟨h1, h2⟩, h3⟩, h4⟩ := hc
          simp only [isBreakoutChar, Bool.or_eq_true, decide_eq_true_eq]
          simp [h2, h3, h4]
        simp [List.all_append, entityFor_no_breakout, ih, hb]

/-- Claim C10: for every input value, the string `escapeHtml` returns
contains none of `<`, `>`, `"` (text interpolated through it cannot close
its attribute or element context), and null, undefined, and empty-string
inputs yield the empty string. -/
theorem escapeHtml_no_breakout (v : JSValue) :
    (escapeHtml v).data.all (fun c => !isBreakoutChar c) = true
    ∧ escapeHtml JSValue.null = ""
    ∧ escapeHtml JSValue.undefined = ""
    ∧ escapeHtml (JSValue.str "") = "" := by
  refine ⟨?_, rfl, rfl, rfl⟩
  exact escReplace_no_breakout _ []
